import Mathlib

/-!
Shallow embedding of `src/systems/trajectory_optimization/hybrid_dircon.cc`
(class `HybridDircon<T>`), the hybrid DIRCON transcription.

Decision variables of the underlying `MathematicalProgram` are modelled as
natural-number indices, allocated sequentially exactly as the successive
`NewContinuousVariables` calls of the source allocate them.  The base class
`drake::systems::trajectory_optimization::MultipleShooting` (an external
collaborator) is modelled only through its variable layout and accessors:
it owns `h_vars` (one timestep variable per interval, `N-1` of them, since
`HybridDircon` always constructs it with timesteps as decision variables),
`x_vars` (`num_states * N` state variables, knot `k` owning the contiguous
block starting at `k * num_states`) and `u_vars` (`num_inputs * N` input
variables laid out the same way).  Real scalars are modelled as `ℚ`.

Eigen's `segment(start, len)` aborts (assertion failure / undefined
behaviour) when the requested range does not fit inside the vector; the
checked model `segment` returns `Except.error` in that case.
-/

namespace HybridDirconModel

/-- External rigid-body tree: only the dimensions the transcription reads. -/
structure RigidBodyTree where
  num_positions : Nat
  num_velocities : Nat
  num_actuators : Nat
  deriving DecidableEq, Repr, Inhabited

/-- Modelled from the spec (§4.3, §5): an individual kinematic constraint
object (`DirconKinematicData`, declared in a header that is not part of the
sources) exposes its row count `getLength()` and a number of auxiliary
force constraints `numForceConstraints()`. -/
structure DirconKinematicData where
  length : Nat
  numForceConstraints : Nat
  deriving DecidableEq, Repr, Inhabited

/-- Modelled from the spec (§4.1): a `DirconKinematicDataSet` aggregates the
individual constraint objects of one mode. -/
structure DirconKinematicDataSet where
  constraintObjects : List DirconKinematicData
  deriving DecidableEq, Repr, Inhabited

/-- Modelled from the spec (§4.1, §3): `countConstraints()` is the total
number of active constraint rows, i.e. the stacked length of the
aggregated constraint objects. -/
def DirconKinematicDataSet.countConstraints (d : DirconKinematicDataSet) : Nat :=
  (d.constraintObjects.map (fun o => o.length)).sum

def DirconKinematicDataSet.getNumConstraintObjects (d : DirconKinematicDataSet) : Nat :=
  d.constraintObjects.length

/-- Modelled from the spec (§4.3): the three per-row enforcement levels a
`DirconKinematicConstraint` can be configured with at a knot. -/
inductive DirconKinConstraintType where
  | kAll
  | kAccelAndVel
  | kAccelOnly
  deriving DecidableEq, Repr, Inhabited

/-- Modelled from the spec: `DirconOptions` (declared in a header that is
not part of the sources) carries the per-mode relative-offset count, the
start/end constraint types and the force-cost weight. -/
structure DirconOptions where
  numRelative : Nat
  startType : DirconKinConstraintType
  endType : DirconKinConstraintType
  forceCost : ℚ
  deriving DecidableEq, Repr, Inhabited

/-- The constructor arguments of `HybridDircon<T>` (hybrid_dircon.cc:26-27). -/
structure HybridDircon where
  tree : RigidBodyTree
  num_time_samples : List Nat
  minimum_timestep : List ℚ
  maximum_timestep : List ℚ
  constraints : List DirconKinematicDataSet
  options : List DirconOptions
  deriving Repr, Inhabited

namespace HybridDircon

/-- Total sample count passed to the `MultipleShooting` base:
`std::accumulate(num_time_samples.begin(), num_time_samples.end(), 0)`. -/
def N (c : HybridDircon) : Nat := c.num_time_samples.sum

/-- `num_states()` of the base: `tree.get_num_positions() + tree.get_num_velocities()`. -/
def num_states (c : HybridDircon) : Nat := c.tree.num_positions + c.tree.num_velocities

/-- `num_inputs()` of the base: `tree.get_num_actuators()`. -/
def num_inputs (c : HybridDircon) : Nat := c.tree.num_actuators

/-- `num_modes_ = num_time_samples.size()` (hybrid_dircon.cc:30). -/
def num_modes (c : HybridDircon) : Nat := c.num_time_samples.length

/-- `mode_lengths_[i]` (hybrid_dircon.cc:31). -/
def mode_lengths (c : HybridDircon) (i : Nat) : Nat := c.num_time_samples.getD i 0

/-- `mode_start_[i]`: the running counter pushed at the top of the mode loop
(hybrid_dircon.cc:41-43,145), i.e. the sum of the previous mode lengths. -/
def mode_start (c : HybridDircon) (i : Nat) : Nat := (c.num_time_samples.take i).sum

/-- `num_kinematic_constraints(i)` (hybrid_dircon.cc:54). -/
def num_kinematic_constraints (c : HybridDircon) (i : Nat) : Nat :=
  ((c.constraints.getD i default).countConstraints)

/-- A fresh block of `n` decision-variable indices starting at `start`. -/
def varBlock (start n : Nat) : List Nat := (List.range n).map (fun k => k + start)

/-- `NewContinuousVariables(n, name)`: returns the new block and the next
free index. -/
def newContinuousVariables (next n : Nat) : List Nat × Nat := (varBlock next n, next + n)

/-- Timestep variables `h_vars()` of the base class: `N-1` variables,
allocated first. -/
def h_vars (c : HybridDircon) : List Nat := varBlock 0 (c.N - 1)

/-- State variables `x_vars()` of the base class, allocated after `h_vars`. -/
def x_vars (c : HybridDircon) : List Nat := varBlock (c.N - 1) (c.num_states * c.N)

/-- Input variables `u_vars()` of the base class, allocated after `x_vars`. -/
def u_vars (c : HybridDircon) : List Nat :=
  varBlock (c.N - 1 + c.num_states * c.N) (c.num_inputs * c.N)

/-- First decision-variable index not used by the base class. -/
def baseVarEnd (c : HybridDircon) : Nat :=
  c.N - 1 + c.num_states * c.N + c.num_inputs * c.N

/-- The per-mode variable blocks created by one iteration of the
constructor's mode loop (hybrid_dircon.cc:57-61): `lambda[i]`,
`lambda_c[i]`, `v_c[i]`, `offset[i]`, and the fresh block the member
`v_post_impact_vars_` is re-assigned to. -/
structure ModeVars where
  force_vars : List Nat
  collocation_force_vars : List Nat
  collocation_slack_vars : List Nat
  offset_vars : List Nat
  v_post_impact_vars : List Nat
  deriving DecidableEq, Repr, Inhabited

/-- One iteration of the allocation part of the mode loop
(hybrid_dircon.cc:57-61), in source order. -/
def allocMode (c : HybridDircon) (i : Nat) (next : Nat) : ModeVars × Nat :=
  let f := newContinuousVariables next
    (c.num_kinematic_constraints i * c.num_time_samples.getD i 0)
  let lc := newContinuousVariables f.2
    (c.num_kinematic_constraints i * (c.num_time_samples.getD i 0 - 1))
  let vc := newContinuousVariables lc.2
    (c.num_kinematic_constraints i * (c.num_time_samples.getD i 0 - 1))
  let off := newContinuousVariables vc.2 ((c.options.getD i default).numRelative)
  let vp := newContinuousVariables off.2 c.tree.num_velocities
  (⟨f.1, lc.1, vc.1, off.1, vp.1⟩, vp.2)

/-- Sequential allocation over the given mode indices, threading the next
free decision-variable index. -/
def allocModesFrom (c : HybridDircon) (next : Nat) : List Nat → List ModeVars
  | [] => []
  | i :: rest =>
    (allocMode c i next).1 :: allocModesFrom c (allocMode c i next).2 rest

/-- The per-mode variable blocks of the whole constructor run: the mode
loop allocates after the base class variables, mode by mode. -/
def modeVars (c : HybridDircon) : List ModeVars :=
  allocModesFrom c c.baseVarEnd (List.range c.num_modes)

/-- `force_vars(i)` member accessor. -/
def force_vars (c : HybridDircon) (i : Nat) : List Nat :=
  ((c.modeVars).getD i default).force_vars

/-- `collocation_force_vars(i)` member accessor. -/
def collocation_force_vars (c : HybridDircon) (i : Nat) : List Nat :=
  ((c.modeVars).getD i default).collocation_force_vars

/-- `collocation_slack_vars(i)` member accessor. -/
def collocation_slack_vars (c : HybridDircon) (i : Nat) : List Nat :=
  ((c.modeVars).getD i default).collocation_slack_vars

/-- `offset_vars(i)` member accessor. -/
def offset_vars (c : HybridDircon) (i : Nat) : List Nat :=
  ((c.modeVars).getD i default).offset_vars

/-- The value of the member `v_post_impact_vars_` while mode `i`'s
constraints are being added: hybrid_dircon.cc:61 re-assigns the member to a
fresh `num_velocities`-sized block on every iteration of the mode loop, so
during (and after) iteration `i` it holds only the block allocated in that
iteration. -/
def v_post_impact_vars_current (c : HybridDircon) (i : Nat) : List Nat :=
  ((c.modeVars).getD i default).v_post_impact_vars

end HybridDircon

/-- Eigen `segment(start, len)` with its range check: in a Drake debug
build an out-of-range segment is a fatal assertion failure. -/
def segment (v : List Nat) (start len : Nat) : Except String (List Nat) :=
  if start + len ≤ v.length then Except.ok ((v.drop start).take len)
  else Except.error "segment out of range"

/-- Monadic map over a list in `Except`, failing at the first failure. -/
def exceptMapList {α β : Type} (f : α → Except String β) : List α → Except String (List β)
  | [] => Except.ok []
  | a :: l => do
    let b ← f a
    let bs ← exceptMapList f l
    Except.ok (b :: bs)

/-- A constraint (or cost) registered with the `MathematicalProgram`,
recording its kind and the decision-variable indices it is bound to. -/
inductive Binding where
  /-- `AddBoundingBoxConstraint(lb, ub, vars)`. -/
  | boundingBox (lb ub : ℚ) (vars : List Nat)
  /-- `AddLinearConstraint(timestep(j) == timestep(j+1))`. -/
  | timestepEquality (left right : List Nat)
  /-- `AddConstraint(DirconDynamicConstraint, vars)` with its row count. -/
  | dynamic (numRows : Nat) (vars : List Nat)
  /-- `AddConstraint(DirconKinematicConstraint, -)` with the constraint's
  type option and its four variable blocks (state, input, force, offset). -/
  | kinematic (ctype : DirconKinConstraintType)
      (stateVars inputVars forceVars offsetVars : List Nat)
  /-- `AddConstraint(constraint_j->getForceConstraint(k), vars)` added for
  knot `l` and constraint object `j`. -/
  | force (l j k : Nat) (vars : List Nat)
  deriving DecidableEq, Repr

namespace HybridDircon

/-- The construction-time validation (hybrid_dircon.cc:33-35): the three
`DRAKE_ASSERT`s comparing the per-mode input vector lengths against
`num_modes_`.  `DRAKE_ASSERT` aborts the program (in a debug build) when
the condition is false. -/
def checks (c : HybridDircon) : Bool :=
  (c.minimum_timestep.length == c.num_modes) &&
  (c.maximum_timestep.length == c.num_modes) &&
  (c.constraints.length == c.num_modes)

/-- `timestep(index)` of the `MultipleShooting` base:
`h_vars_.segment(index, 1)`. -/
def timestep (c : HybridDircon) (j : Nat) : Except String (List Nat) :=
  segment c.h_vars j 1

/-- The timestep bounding boxes added for mode `i` (hybrid_dircon.cc:46-48):
`for (j = 0; j < mode_lengths_[i]; j++)
   AddBoundingBoxConstraint(minimum_timestep[i], maximum_timestep[i], timestep(j))`. -/
def timestepBoundingBoxes (c : HybridDircon) (i : Nat) : Except String (List Binding) :=
  exceptMapList (fun j => do
      let t ← c.timestep j
      Except.ok (Binding.boundingBox (c.minimum_timestep.getD i 0)
        (c.maximum_timestep.getD i 0) t))
    (List.range (c.mode_lengths i))

/-- The timestep equality constraints added for mode `i`
(hybrid_dircon.cc:49-51):
`for (j = 0; j < mode_lengths_[i] - 1; j++)
   AddLinearConstraint(timestep(j) == timestep(j+1))`. -/
def timestepEqualities (c : HybridDircon) (i : Nat) : Except String (List Binding) :=
  exceptMapList (fun j => do
      let a ← c.timestep j
      let b ← c.timestep (j + 1)
      Except.ok (Binding.timestepEquality a b))
    (List.range (c.mode_lengths i - 1))

/-- `v_post_impact_vars_by_mode(mode)` (hybrid_dircon.cc:150-152):
`v_post_impact_vars_.segment(mode * num_velocities, num_velocities)` on the
current value of the member. -/
def v_post_impact_vars_by_mode (c : HybridDircon) (vpost : List Nat) (mode : Nat) :
    Except String (List Nat) :=
  segment vpost (mode * c.tree.num_velocities) c.tree.num_velocities

/-- `state_vars_by_mode(mode, time_index)` (hybrid_dircon.cc:155-166),
evaluated against the current value `vpost` of the member
`v_post_impact_vars_`.  For knot 0 of a mode after the first it
concatenates `x_vars().segment(mode_start_[mode] + time_index, num_positions)`
with `v_post_impact_vars_by_mode(mode)`; otherwise it is
`x_vars().segment(mode_start_[mode] + time_index, num_states())`. -/
def state_vars_by_mode (c : HybridDircon) (vpost : List Nat) (mode time_index : Nat) :
    Except String (List Nat) :=
  if time_index = 0 ∧ 0 < mode then do
    let q ← segment c.x_vars (c.mode_start mode + time_index) c.tree.num_positions
    let v ← c.v_post_impact_vars_by_mode vpost mode
    Except.ok (q ++ v)
  else
    segment c.x_vars (c.mode_start mode + time_index) c.num_states

/-- The per-knot state block of the `MultipleShooting` base, i.e. what its
`state(k)` accessor returns: `x_vars_.segment(k * num_states(), num_states())`. -/
def state (c : HybridDircon) (k : Nat) : Except String (List Nat) :=
  segment c.x_vars (k * c.num_states) c.num_states

/-- Modelled from the spec (§4.2): `DirconDynamicConstraint` (declared in a
header that is not part of the sources) is a fixed-size equality constraint
with `2 * n_v` rows. -/
def dirconDynamicConstraintNumRows (tree : RigidBodyTree) : Nat :=
  2 * tree.num_velocities

/-- The dynamics collocation constraints added for mode `i`
(hybrid_dircon.cc:63-86).  Construction first asserts
`DRAKE_ASSERT(constraint->num_constraints() == num_states())` (line 65),
then for every interval `j < mode_lengths_[i] - 1` binds the shared
constraint to `h`, the two knot states resolved through
`state_vars_by_mode`, the two knot inputs, the two knot force blocks and
the interval's collocation force/slack blocks. -/
def dynamicBindingAt (c : HybridDircon) (i j : Nat) : Except String Binding := do
  let h ← segment c.h_vars (c.mode_start i + j) 1
  let x0 ← c.state_vars_by_mode (c.v_post_impact_vars_current i) i j
  let x1 ← c.state_vars_by_mode (c.v_post_impact_vars_current i) i (j + 1)
  let u ← segment c.u_vars ((c.mode_start i + j) * c.num_inputs) (c.num_inputs * 2)
  let f ← segment (c.force_vars i)
    (j * c.num_kinematic_constraints i) (c.num_kinematic_constraints i * 2)
  let lc ← segment (c.collocation_force_vars i)
    (j * c.num_kinematic_constraints i) (c.num_kinematic_constraints i)
  let vc ← segment (c.collocation_slack_vars i)
    (j * c.num_kinematic_constraints i) (c.num_kinematic_constraints i)
  Except.ok (Binding.dynamic (dirconDynamicConstraintNumRows c.tree)
    (h ++ x0 ++ x1 ++ u ++ f ++ lc ++ vc))

/-- The dynamics collocation constraints of mode `i`: the assert, then the
interval loop binding `dynamicBindingAt` for `j < mode_lengths_[i] - 1`. -/
def dynamicBindings (c : HybridDircon) (i : Nat) : Except String (List Binding) :=
  if dirconDynamicConstraintNumRows c.tree = c.num_states then
    exceptMapList (c.dynamicBindingAt i) (List.range (c.mode_lengths i - 1))
  else Except.error "DRAKE_ASSERT num_constraints == num_states failed"

/-- Modelled from the spec (§4.3): the constraint type a
`DirconKinematicConstraint` is constructed with when none is passed
explicitly, as for the interior-knot instance (hybrid_dircon.cc:89-90). -/
def dirconKinematicDefaultType : DirconKinConstraintType := DirconKinConstraintType.kAll

/-- The kinematic constraints added for mode `i` (hybrid_dircon.cc:88-116):
one interior instance bound at knots `1 .. mode_lengths_[i]-2`
(lines 91-98), one start-type instance bound at knot 0 (lines 101-107, note
the input segment starts at `mode_start_[i]`, without a `num_inputs()`
factor), and one end-type instance bound at knot `mode_lengths_[i]-1`
(lines 110-116). -/
def kinematicBindings (c : HybridDircon) (i : Nat) : Except String (List Binding) := do
  let interior ← exceptMapList (fun j => do
      let x ← c.state_vars_by_mode (c.v_post_impact_vars_current i) i j
      let u ← segment c.u_vars ((c.mode_start i + j) * c.num_inputs) c.num_inputs
      let f ← segment (c.force_vars i)
        (j * c.num_kinematic_constraints i) (c.num_kinematic_constraints i)
      Except.ok (Binding.kinematic dirconKinematicDefaultType x u f (c.offset_vars i)))
    ((List.range (c.mode_lengths i - 1)).drop 1)
  let xs ← c.state_vars_by_mode (c.v_post_impact_vars_current i) i 0
  let us ← segment c.u_vars (c.mode_start i) c.num_inputs
  let fs ← segment (c.force_vars i) 0 (c.num_kinematic_constraints i)
  let xe ← c.state_vars_by_mode (c.v_post_impact_vars_current i) i (c.mode_lengths i - 1)
  let ue ← segment c.u_vars ((c.mode_start i + c.mode_lengths i - 1) * c.num_inputs)
    c.num_inputs
  let fe ← segment (c.force_vars i)
    ((c.mode_lengths i - 1) * c.num_kinematic_constraints i)
    (c.num_kinematic_constraints i)
  Except.ok (interior ++
    [Binding.kinematic (c.options.getD i default).startType xs us fs (c.offset_vars i),
     Binding.kinematic (c.options.getD i default).endType xe ue fe (c.offset_vars i)])

/-- The inner object loop of the force-constraint section
(hybrid_dircon.cc:122-128) for one knot, threading the running
`start_index`.  Note the source increments `start_index` by
`constraint_j->getLength()` at line 124, before using it in the segment at
line 126. -/
def forceBindingsObjects (c : HybridDircon) (i l : Nat) :
    Nat → Nat → List DirconKinematicData → Except String (List Binding)
  | _, _, [] => Except.ok []
  | startIndex, j, obj :: rest => do
    let s := startIndex + obj.length
    let bs ← exceptMapList (fun k => do
        let f ← segment (c.force_vars i) s obj.length
        Except.ok (Binding.force l j k f))
      (List.range obj.numForceConstraints)
    let bs2 ← forceBindingsObjects c i l s (j + 1) rest
    Except.ok (bs ++ bs2)

/-- The auxiliary force constraints added for mode `i`
(hybrid_dircon.cc:119-129): the outer loop runs over
`l < mode_lengths_[i] - 1` with `start_index` initialised to
`l * num_kinematic_constraints(i)`. -/
def forceBindings (c : HybridDircon) (i : Nat) : Except String (List Binding) := do
  let per ← exceptMapList (fun l =>
      forceBindingsObjects c i l (l * c.num_kinematic_constraints i) 0
        (c.constraints.getD i default).constraintObjects)
    (List.range (c.mode_lengths i - 1))
  Except.ok per.flatten

/-- The total running cost added by `DoAddRunningCost(g)`
(hybrid_dircon.cc:169-183), as the value it takes when the placeholder cost
`g` evaluates to `g i` at sample `i` and the timestep variable `h_vars()(i)`
takes the value `h i`.  The source adds
`0.5 * (g_0 * h_0 / 2)`, then `g_i * (h_(i-1) + h_i) / 2` for
`1 <= i < N()-2`, then `0.5 * (g_(N-1) * h_(N-2) / 2)`. -/
def DoAddRunningCost (Ntot : Nat) (g h : Nat → ℚ) : ℚ :=
  (1 / 2) * (g 0 * h 0 / 2)
  + (((List.range (Ntot - 2)).drop 1).map (fun i => g i * (h (i - 1) + h i) / 2)).sum
  + (1 / 2) * (g (Ntot - 1) * h (Ntot - 2) / 2)

/-- The trapezoidal total the claim (and the comment at
hybrid_dircon.cc:171-174) states: `g_0 * h_0 / 2`, plus
`g_i * (h_(i-1) + h_i) / 2` for `1 <= i <= N-2`, plus
`g_(N-1) * h_(N-2) / 2`.  Stated from the claim's words, for comparison
with `DoAddRunningCost`. -/
def claimedTrapezoidalCost (Ntot : Nat) (g h : Nat → ℚ) : ℚ :=
  g 0 * h 0 / 2
  + (((List.range (Ntot - 1)).drop 1).map (fun i => g i * (h (i - 1) + h i) / 2)).sum
  + g (Ntot - 1) * h (Ntot - 2) / 2

/-- Eigen segment assignment `v.segment(start, len) = vals`: Eigen aborts
when the segment does not fit in `v` or `vals` does not have `len` rows. -/
def assignSegment (v : List ℚ) (start len : Nat) (vals : List ℚ) :
    Except String (List ℚ) :=
  if vals.length = len ∧ start + len ≤ v.length then
    Except.ok (v.take start ++ vals ++ v.drop (start + len))
  else Except.error "segment assignment out of range"

/-- The sampling loop of one group of `SetInitialForceTrajectory`
(hybrid_dircon.cc:239-242, 250-253, 261-264): for each `i` in the given
index list, assign `guess.segment(nc * i, nc) = traj.value(time i)`. -/
def seedWrites (nc : Nat) (f : ℚ → List ℚ) (time : Nat → ℚ) :
    List ℚ → List Nat → Except String (List ℚ)
  | v, [] => Except.ok v
  | v, i :: rest => do
    let v2 ← assignSegment v (nc * i) nc (f (time i))
    seedWrites nc f time v2 rest

/-- One variable group of `SetInitialForceTrajectory`: a vector sized like
the group's variable block, filled with zeros when the trajectory is empty
(`traj.empty()`), otherwise written by the sampling loop over `loopCount`
indices. -/
def seedGroup (groupSize nc loopCount : Nat) (traj : Option (ℚ → List ℚ))
    (time : Nat → ℚ) : Except String (List ℚ) :=
  match traj with
  | none => Except.ok (List.replicate groupSize 0)
  | some f => seedWrites nc f time (List.replicate groupSize 0) (List.range loopCount)

/-- `SetInitialForceTrajectory(mode, traj_init_l, traj_init_lc, traj_init_vc)`
(hybrid_dircon.cc:224-267).  `HybridDircon` always constructs its base with
timesteps as decision variables, so `h` is
`GetInitialGuess(h_vars()[0])`, the initial guess of the first global
timestep variable (the `fixed_timestep()` branch of lines 230-233 is dead
in this class); `start_time` is 0.  Knot forces are sampled at `i * h` for
`i < N()` and the two collocation groups at `(i + 0.5) * h` for
`i < N() - 1`, `N()` being the global sample count.  The three seeded
guess vectors are sized by the mode's variable blocks.  An initial-guess
vector whose `value()` rows disagree with the mode's constraint count, or
a write past the end of the guess vector, is an Eigen abort. -/
def SetInitialForceTrajectory (c : HybridDircon) (mode : Nat)
    (initialGuess : Nat → ℚ) (traj_init_l traj_init_lc traj_init_vc : Option (ℚ → List ℚ)) :
    Except String (List ℚ × List ℚ × List ℚ) := do
  let h := initialGuess (c.h_vars.getD 0 0)
  let nc := c.num_kinematic_constraints mode
  let gf ← seedGroup (c.force_vars mode).length nc c.N traj_init_l
    (fun i => (i : ℚ) * h)
  let glc ← seedGroup (c.collocation_force_vars mode).length nc (c.N - 1) traj_init_lc
    (fun i => ((i : ℚ) + 1 / 2) * h)
  let gvc ← seedGroup (c.collocation_slack_vars mode).length nc (c.N - 1) traj_init_vc
    (fun i => ((i : ℚ) + 1 / 2) * h)
  Except.ok (gf, glc, gvc)

end HybridDircon

/-- Eigen `segment(start, len)` in a context whose indices the enclosing
code keeps in range (the trajectory-reconstruction loops only index knots
`0 .. N()-1`, whose blocks always fit); agrees with the checked `segment`
there. -/
def segmentD (v : List Nat) (start len : Nat) : List Nat := (v.drop start).take len

namespace HybridDircon

/-- `GetSolution(state(k))`: the solved per-knot state block of the base
class, under the solution valuation `sol`. -/
def stateSolution (c : HybridDircon) (sol : Nat → ℚ) (k : Nat) : List ℚ :=
  (segmentD c.x_vars (k * c.num_states) c.num_states).map sol

/-- `GetSolution(input(k))`: the solved per-knot input block. -/
def inputSolution (c : HybridDircon) (sol : Nat → ℚ) (k : Nat) : List ℚ :=
  (segmentD c.u_vars (k * c.num_inputs) c.num_inputs).map sol

/-- `GetSolution(force(i, j))`.  Modelled from the spec (§3: a knot owns
its force sub-block): the `force(mode, index)` accessor, declared in the
header that is not part of the sources, returns knot `j`'s
`num_kinematic_constraints(i)`-sized sub-block of `force_vars(i)`. -/
def forceSolution (c : HybridDircon) (sol : Nat → ℚ) (i j : Nat) : List ℚ :=
  (segmentD (c.force_vars i) (j * c.num_kinematic_constraints i)
    (c.num_kinematic_constraints i)).map sol

/-- `GetSampleTimes()(k)`: the cumulative sum of the solved timesteps
before sample `k`. -/
def sampleTime (c : HybridDircon) (sol : Nat → ℚ) (k : Nat) : ℚ :=
  ((c.h_vars.take k).map sol).sum

end HybridDircon

/-- The knot enumeration of the nested reconstruction loops
(hybrid_dircon.cc:209-211): for each mode `i` (starting at the given first
index) and each knot `j < mode_lengths_[i]` the pair `(i, j)`; the write
index `k = mode_start_[i] + j` equals the pair's position in this list. -/
def knotPairsFrom : Nat → List Nat → List (Nat × Nat)
  | _, [] => []
  | i, a :: L => (List.range a).map (fun j => (i, j)) ++ knotPairsFrom (i + 1) L

/-- The data handed to `PiecewisePolynomial<double>::Cubic(times, samples,
derivatives)` (hybrid_dircon.cc:221): the external library builds from it
the piecewise-cubic (Hermite) polynomial matching each sample value and
derivative at its break. -/
structure CubicTraj where
  breaks : List ℚ
  samples : List (List ℚ)
  derivatives : List (List ℚ)
  deriving DecidableEq, Repr

/-- The data handed to `PiecewisePolynomial<double>::FirstOrderHold(times,
samples)` (hybrid_dircon.cc:195): the external library builds from it the
piecewise-linear interpolation of the samples over the breaks. -/
structure FOHTraj where
  breaks : List ℚ
  samples : List (List ℚ)
  deriving DecidableEq, Repr

namespace HybridDircon

/-- One iteration of the `ReconstructStateTrajectory` loop body
(hybrid_dircon.cc:210-219) at knot `(i, j)`, `k = mode_start_[i] + j`:
records `times(k)`, `GetSolution(state(k))`, and the derivative obtained by
`constraints_[i]->updateData(states[k], inputs[k], forces[k])` followed by
`DiscardGradient(constraints_[i]->getXDot())`.  The constrained-dynamics
oracle (`updateData` composed with `getXDot`, an external computation
through the rigid-body tree) is the parameter `xdot`; `DiscardGradient` is
the identity on the double values it returns. -/
def reconRow (c : HybridDircon) (sol : Nat → ℚ)
    (xdot : List ℚ → List ℚ → List ℚ → List ℚ) (p : Nat × Nat) : ℚ × List ℚ × List ℚ :=
  (c.sampleTime sol (c.mode_start p.1 + p.2),
   c.stateSolution sol (c.mode_start p.1 + p.2),
   xdot (c.stateSolution sol (c.mode_start p.1 + p.2))
     (c.inputSolution sol (c.mode_start p.1 + p.2))
     (c.forceSolution sol p.1 p.2))

/-- `ReconstructStateTrajectory()` (hybrid_dircon.cc:199-222): the nested
mode/knot loops fill `times_vec`, `states` and `derivatives` at
`k = mode_start_[i] + j` and the result is
`PiecewisePolynomial<double>::Cubic(times_vec, states, derivatives)`. -/
def ReconstructStateTrajectory (c : HybridDircon) (sol : Nat → ℚ)
    (xdot : List ℚ → List ℚ → List ℚ → List ℚ) : CubicTraj :=
  let rows := (knotPairsFrom 0 c.num_time_samples).map (c.reconRow sol xdot)
  ⟨rows.map (fun r => r.1), rows.map (fun r => r.2.1), rows.map (fun r => r.2.2)⟩

/-- `ReconstructInputTrajectory()` (hybrid_dircon.cc:185-196): for each
sample `i < N()` record `times(i)` and `GetSolution(input(i))`, and hand
them to `PiecewisePolynomial<double>::FirstOrderHold`. -/
def ReconstructInputTrajectory (c : HybridDircon) (sol : Nat → ℚ) : FOHTraj :=
  ⟨(List.range c.N).map (fun k => c.sampleTime sol k),
   (List.range c.N).map (fun k => c.inputSolution sol k)⟩

end HybridDircon

end HybridDirconModel

namespace HybridDirconModel

/-- A rigid-body tree with one position, one velocity and one actuator,
e.g. a single actuated pin joint. -/
def tree1 : RigidBodyTree := ⟨1, 1, 1⟩

/-- A constraint set with one constraint object of one row that carries one
auxiliary force constraint. -/
def ds1 : DirconKinematicDataSet := ⟨[⟨1, 1⟩]⟩

/-- Options with no relative constraints, default start/end types and no
force cost. -/
def opt0 : DirconOptions := ⟨0, DirconKinConstraintType.kAll, DirconKinConstraintType.kAll, 0⟩

/-- Two modes of two knots each over `tree1`, with per-mode timestep bounds
[1, 3] and [2, 4]. -/
def cfgTwoModes : HybridDircon :=
  ⟨tree1, [2, 2], [1, 2], [3, 4], [ds1, ds1], [opt0, opt0]⟩

/-- A single mode of two knots over `tree1`. -/
def cfgOneMode2 : HybridDircon := ⟨tree1, [2], [1], [3], [ds1], [opt0]⟩

/-- A single mode of three knots over `tree1`. -/
def cfgOneMode3 : HybridDircon := ⟨tree1, [3], [1], [3], [ds1], [opt0]⟩

/-- A single mode whose minimum timestep (5) exceeds its maximum (1). -/
def cfgMinAboveMax : HybridDircon := ⟨tree1, [2], [5], [1], [ds1], [opt0]⟩

end HybridDirconModel

namespace HybridDirconModel

open HybridDircon

theorem exceptBind_ok {α β : Type} {x : Except String α} {g : α → Except String β} {b : β}
    (h : (x >>= g) = Except.ok b) : ∃ a, x = Except.ok a ∧ g a = Except.ok b := by
  cases x with
  | error e => simp [Bind.bind, Except.bind] at h
  | ok a => exact ⟨a, rfl, by simpa [Bind.bind, Except.bind] using h⟩

theorem exceptMapList_mem {α β : Type} {f : α → Except String β} :
    ∀ {l : List α} {bs : List β}, exceptMapList f l = Except.ok bs →
      ∀ b ∈ bs, ∃ a ∈ l, f a = Except.ok b := by
  intro l
  induction l with
  | nil =>
    intro bs h b hb
    simp only [exceptMapList, Except.ok.injEq] at h
    subst h
    simp at hb
  | cons a l ih =>
    intro bs h b hb
    unfold exceptMapList at h
    obtain ⟨b1, hfa, h⟩ := exceptBind_ok h
    obtain ⟨bs1, hrec, h⟩ := exceptBind_ok h
    have hb' : bs = b1 :: bs1 := by simpa using h.symm
    subst hb'
    rcases List.mem_cons.mp hb with hb1 | hbs
    · exact ⟨a, List.mem_cons_self a l, hb1 ▸ hfa⟩
    · obtain ⟨a', ha', hfa'⟩ := ih hrec b hbs
      exact ⟨a', List.mem_cons_of_mem a ha', hfa'⟩

theorem dynamicBindingAt_shape (c : HybridDircon) (i j : Nat) (b : Binding)
    (h : c.dynamicBindingAt i j = Except.ok b) :
    ∃ vars, b = Binding.dynamic (dirconDynamicConstraintNumRows c.tree) vars := by
  unfold HybridDircon.dynamicBindingAt at h
  obtain ⟨a1, h1, h⟩ := exceptBind_ok h
  obtain ⟨a2, h2, h⟩ := exceptBind_ok h
  obtain ⟨a3, h3, h⟩ := exceptBind_ok h
  obtain ⟨a4, h4, h⟩ := exceptBind_ok h
  obtain ⟨a5, h5, h⟩ := exceptBind_ok h
  obtain ⟨a6, h6, h⟩ := exceptBind_ok h
  obtain ⟨a7, h7, h⟩ := exceptBind_ok h
  exact ⟨a1 ++ a2 ++ a3 ++ a4 ++ a5 ++ a6 ++ a7, by simpa using h.symm⟩

theorem allocModesFrom_getD (c : HybridDircon) :
    ∀ (l : List Nat) (next j : Nat), j < l.length →
      ∃ m, (allocModesFrom c next l).getD j default = (allocMode c (l.getD j 0) m).1 := by
  intro l
  induction l with
  | nil => intro next j hj; simp at hj
  | cons a l ih =>
    intro next j hj
    cases j with
    | zero => exact ⟨next, rfl⟩
    | succ j =>
      obtain ⟨m, hm⟩ := ih (allocMode c a next).2 j (by simpa using hj)
      exact ⟨m, by simpa [allocModesFrom] using hm⟩

theorem range_getD {i n : Nat} (h : i < n) : (List.range n).getD i 0 = i := by
  simp [List.getD_eq_getElem?_getD, List.getElem?_range h]

theorem sum_take_add_lt (L : List Nat) :
    ∀ i j, i < L.length → j < L.getD i 0 → (L.take i).sum + j < L.sum := by
  induction L with
  | nil => intro i j hi _; simp at hi
  | cons a L ih =>
    intro i j hi hj
    cases i with
    | zero =>
      simp only [List.take_zero, List.sum_nil, Nat.zero_add, List.sum_cons]
      exact Nat.lt_of_lt_of_le (by simpa using hj) (Nat.le_add_right a L.sum)
    | succ i =>
      have h2 := ih i j (by simpa using hi) (by simpa using hj)
      simp only [List.take_succ_cons, List.sum_cons]
      omega

theorem knotPairsFrom_length (L : List Nat) : ∀ m, (knotPairsFrom m L).length = L.sum := by
  induction L with
  | nil => intro m; rfl
  | cons a L ih => intro m; simp [knotPairsFrom, ih]

theorem knotPairsFrom_getElem (L : List Nat) :
    ∀ m i j, i < L.length → j < L.getD i 0 →
      (knotPairsFrom m L)[(L.take i).sum + j]? = some (m + i, j) := by
  induction L with
  | nil => intro m i j hi _; simp at hi
  | cons a L ih =>
    intro m i j hi hj
    cases i with
    | zero =>
      have hj' : j < a := by simpa using hj
      simp only [knotPairsFrom, List.take_zero, List.sum_nil, Nat.zero_add, Nat.add_zero]
      rw [List.getElem?_append_left (by simpa using hj')]
      simp [List.getElem?_range hj']
    | succ i =>
      have hi' : i < L.length := by simpa using hi
      have hj' : j < L.getD i 0 := by simpa using hj
      simp only [knotPairsFrom, List.take_succ_cons, List.sum_cons]
      rw [List.getElem?_append_right (by simp [Nat.add_assoc])]
      have harith : a + (L.take i).sum + j - (List.length (List.map (fun j => (m, j)) (List.range a))) = (L.take i).sum + j := by
        simp only [List.length_map, List.length_range]
        omega
      rw [harith, ih (m + 1) i j hi' hj']
      have : m + 1 + i = m + (i + 1) := by omega
      rw [this]

end HybridDirconModel

namespace HybridDirconModel

open HybridDircon

/-- C1: the claim states that every mode `i > 0` gets a distinct
post-impact-velocity block and that resolving knot 0 of mode `i`
substitutes that block for the velocity components while keeping the
knot's position variables, every other knot resolving to the global
per-knot state block.  Evaluating the code refutes this: the constructor
re-assigns `v_post_impact_vars_` to a single fresh `n_v`-sized block on
every mode iteration, so after (and during) construction the member holds
only `n_v` entries and `v_post_impact_vars_by_mode(1)` reads
`segment(n_v, n_v)` past its end; moreover the `x_vars` segment indices
omit the `num_states` factor, so knot 1 of mode 0 resolves to the
overlapping window `[4, 5]` instead of the per-knot state block `[5, 6]`. -/
theorem C1_post_impact_resolution :
    (cfgTwoModes.v_post_impact_vars_current 1).length = 1 ∧
    cfgTwoModes.state_vars_by_mode (cfgTwoModes.v_post_impact_vars_current 1) 1 0
      = Except.error "segment out of range" ∧
    cfgTwoModes.state_vars_by_mode (cfgTwoModes.v_post_impact_vars_current 0) 0 1
      = Except.ok [4, 5] ∧
    cfgTwoModes.state 1 = Except.ok [5, 6] :=
  ⟨rfl, rfl, rfl, rfl⟩

/-- C2: the claim states that mode `i`'s bounding boxes land on that mode's
own per-interval timesteps and that its equality constraints pin mode `i`'s
timesteps to each other.  Evaluating the code refutes this: the loops index
`timestep(j)` by the within-mode counter `j` without the `mode_start_[i]`
offset, so mode 1 of `cfgTwoModes` puts its boxes `[2, 4]` on global
timesteps 0 and 1 (mode 0's region; its own timestep has index
`mode_start 1 = 2`) and pins `h_0 = h_1`; and the box loop runs over all
`mode_lengths_[i]` knots instead of the `mode_lengths_[i] - 1` intervals,
so a single mode of 2 knots already indexes `timestep(1)` past the end of
the one-element `h_vars`. -/
theorem C2_timestep_constraints :
    cfgTwoModes.mode_start 1 = 2 ∧
    cfgTwoModes.h_vars = [0, 1, 2] ∧
    cfgTwoModes.timestepBoundingBoxes 1
      = Except.ok [Binding.boundingBox 2 4 [0], Binding.boundingBox 2 4 [1]] ∧
    cfgTwoModes.timestepEqualities 1 = Except.ok [Binding.timestepEquality [0] [1]] ∧
    cfgOneMode2.timestepBoundingBoxes 0 = Except.error "segment out of range" :=
  ⟨rfl, rfl, rfl, rfl, rfl⟩

/-- C3: the claim (and the comment in the source) states the trapezoidal
total `g_0 h_0 / 2 + sum over i = 1..N-2 of g_i (h_(i-1) + h_i) / 2 +
g_(N-1) h_(N-2) / 2`.  Evaluating the code refutes this: at `N = 3` with
`g = h = 1` the code adds `1/2` (the endpoint terms are halved twice and
the interior loop stops before `i = N-2`) while the claimed total is 2. -/
theorem C3_running_cost :
    DoAddRunningCost 3 (fun _ => 1) (fun _ => 1) = 1 / 2 ∧
    claimedTrapezoidalCost 3 (fun _ => 1) (fun _ => 1) = 2 ∧
    DoAddRunningCost 3 (fun _ => 1) (fun _ => 1)
      ≠ claimedTrapezoidalCost 3 (fun _ => 1) (fun _ => 1) :=
  ⟨by norm_num [DoAddRunningCost, List.range_succ],
   by norm_num [claimedTrapezoidalCost, List.range_succ],
   by norm_num [DoAddRunningCost, claimedTrapezoidalCost, List.range_succ]⟩

/-- C4: the claim states that each constraint object's auxiliary force
constraints are added at every one of the mode's `N` knots over exactly
that object's force sub-block.  Evaluating the code refutes this: in
`cfgOneMode2` (one mode, 2 knots, one length-1 constraint object with one
force constraint, `force_vars(0) = [7, 8]`) the code adds exactly one
binding, attributed to knot 0 but bound to variable 8 (knot 1's block,
because `start_index` is incremented by the object's length before the
segment is taken), and adds nothing at the last knot (the outer loop stops
at `mode_lengths_[i] - 1`). -/
theorem C4_force_constraint_blocks :
    cfgOneMode2.force_vars 0 = [7, 8] ∧
    cfgOneMode2.num_kinematic_constraints 0 = 1 ∧
    cfgOneMode2.mode_lengths 0 = 2 ∧
    cfgOneMode2.forceBindings 0 = Except.ok [Binding.force 0 0 0 [8]] :=
  ⟨rfl, rfl, rfl, rfl⟩

/-- C5 counterexample: the claim states that construction validates that
each mode's minimum timestep does not exceed its maximum.  In
`cfgMinAboveMax` the minimum (5) exceeds the maximum (1), yet the
constructor's validation accepts the input: no comparison between
`minimum_timestep` and `maximum_timestep` exists in the code. -/
theorem C5_min_above_max_accepted :
    cfgMinAboveMax.maximum_timestep.getD 0 0
      < cfgMinAboveMax.minimum_timestep.getD 0 0 ∧
    cfgMinAboveMax.checks = true :=
  ⟨by decide, rfl⟩

/-- C5 amended: construction validates exactly that the per-mode input
vectors `minimum_timestep`, `maximum_timestep` and `constraints` all have
length equal to the number of modes; it performs no comparison between
minimum and maximum timesteps. -/
theorem C5_length_validation (c : HybridDircon) :
    c.checks = true ↔
      (c.minimum_timestep.length = c.num_modes ∧
       c.maximum_timestep.length = c.num_modes ∧
       c.constraints.length = c.num_modes) := by
  simp [HybridDircon.checks, Bool.and_eq_true, and_assoc]

/-- C5 witness: the length validation evaluated on a concrete well-formed
input. -/
theorem C5_length_validation_witness : cfgOneMode2.checks = true :=
  (C5_length_validation cfgOneMode2).mpr (by decide)

/-- C6: for every mode `i` with `c` active kinematic-constraint rows and
`N` knots, the constructor allocates exactly `c * N` force variables,
`c * (N - 1)` collocation-force variables and `c * (N - 1)`
collocation-slack variables. -/
theorem C6_variable_counts (c : HybridDircon) (i : Nat) (hi : i < c.num_modes) :
    (c.force_vars i).length = c.num_kinematic_constraints i * c.mode_lengths i ∧
    (c.collocation_force_vars i).length
      = c.num_kinematic_constraints i * (c.mode_lengths i - 1) ∧
    (c.collocation_slack_vars i).length
      = c.num_kinematic_constraints i * (c.mode_lengths i - 1) := by
  obtain ⟨m, hm⟩ := allocModesFrom_getD c (List.range c.num_modes) c.baseVarEnd i
    (by simpa using hi)
  rw [range_getD hi] at hm
  unfold HybridDircon.force_vars HybridDircon.collocation_force_vars
    HybridDircon.collocation_slack_vars HybridDircon.modeVars
  rw [hm]
  simp [allocMode, newContinuousVariables, varBlock, HybridDircon.mode_lengths]

/-- C6 witness: the variable counts evaluated on `cfgOneMode2`. -/
theorem C6_variable_counts_witness :
    0 < cfgOneMode2.num_modes ∧
    ((cfgOneMode2.force_vars 0).length
        = cfgOneMode2.num_kinematic_constraints 0 * cfgOneMode2.mode_lengths 0 ∧
     (cfgOneMode2.collocation_force_vars 0).length
        = cfgOneMode2.num_kinematic_constraints 0 * (cfgOneMode2.mode_lengths 0 - 1) ∧
     (cfgOneMode2.collocation_slack_vars 0).length
        = cfgOneMode2.num_kinematic_constraints 0 * (cfgOneMode2.mode_lengths 0 - 1)) :=
  ⟨by decide, C6_variable_counts cfgOneMode2 0 (by decide)⟩

/-- C7: the claim states that the interior kinematic-constraint instance is
applied to knots `1..N-2`, the start-type instance to knot 0 and the
end-type instance to knot `N-1`, each bound to that knot's state, input and
force block plus the mode's offset variables.  Evaluating the code shows
the knot selection is as claimed, but refutes the bindings: in
`cfgOneMode3` the interior instance at knot 1 is bound to state variables
`[3, 4]` (the segment index omits the `num_states` factor) instead of knot
1's state block `[4, 5]`; and for any mode after the first the start-knot
binding already aborts while resolving the seam state (see C1). -/
theorem C7_kinematic_bindings :
    cfgOneMode3.kinematicBindings 0 = Except.ok
      [Binding.kinematic DirconKinConstraintType.kAll [3, 4] [9] [12] [],
       Binding.kinematic DirconKinConstraintType.kAll [2, 3] [8] [11] [],
       Binding.kinematic DirconKinConstraintType.kAll [4, 5] [10] [13] []] ∧
    cfgOneMode3.state 1 = Except.ok [4, 5] ∧
    ([3, 4] : List Nat) ≠ [4, 5] ∧
    cfgTwoModes.kinematicBindings 1 = Except.error "segment out of range" :=
  ⟨rfl, rfl, by decide, rfl⟩

/-- C8: for every mode whose dynamics-constraint section succeeds, every
interval's collocation binding carries the fixed row count `2 * n_v` of
the `DirconDynamicConstraint`, and that dimension equals the combined
state dimension `num_states()` demanded by the construction-time assert
(hybrid_dircon.cc:65); when the two disagree the section is a fatal
assertion failure instead. -/
theorem C8_dynamic_dimension (c : HybridDircon) (i : Nat) (bs : List Binding)
    (h : c.dynamicBindings i = Except.ok bs) :
    2 * c.tree.num_velocities = c.num_states ∧
    ∀ b ∈ bs, ∃ vars, b = Binding.dynamic (2 * c.tree.num_velocities) vars := by
  unfold HybridDircon.dynamicBindings at h
  by_cases hdim : dirconDynamicConstraintNumRows c.tree = c.num_states
  · rw [if_pos hdim] at h
    refine ⟨by simpa [dirconDynamicConstraintNumRows] using hdim, ?_⟩
    intro b hb
    obtain ⟨a, _, hfa⟩ := exceptMapList_mem h b hb
    obtain ⟨vars, hv⟩ := dynamicBindingAt_shape c i a b hfa
    exact ⟨vars, by simpa [dirconDynamicConstraintNumRows] using hv⟩
  · rw [if_neg hdim] at h
    simp at h

/-- C8 witness: the dynamics-binding dimension facts evaluated on
`cfgOneMode2`. -/
theorem C8_dynamic_dimension_witness :
    cfgOneMode2.dynamicBindings 0
      = Except.ok [Binding.dynamic 2 [0, 1, 2, 2, 3, 5, 6, 7, 8, 9, 10]] ∧
    (2 * cfgOneMode2.tree.num_velocities = cfgOneMode2.num_states ∧
     ∀ b ∈ [Binding.dynamic 2 [0, 1, 2, 2, 3, 5, 6, 7, 8, 9, 10]],
       ∃ vars, b = Binding.dynamic (2 * cfgOneMode2.tree.num_velocities) vars) :=
  ⟨rfl, C8_dynamic_dimension cfgOneMode2 0 _ rfl⟩

/-- C9: for every mode `i` and knot `j`, `ReconstructStateTrajectory` hands
the cubic-polynomial constructor, at global knot `k = mode_start i + j`,
the sample time, the solved knot state, and the derivative obtained by
re-evaluating the constrained dynamics (the `xdot` oracle, with derivative
tracking discarded) at that knot's solved state, input and force; it covers
all `N` knots; and `ReconstructInputTrajectory` hands the first-order-hold
constructor the solved input samples over the sample times. -/
theorem C9_reconstruction (c : HybridDircon) (sol : Nat → ℚ)
    (xdot : List ℚ → List ℚ → List ℚ → List ℚ) (i j : Nat)
    (hi : i < c.num_modes) (hj : j < c.mode_lengths i) :
    (c.ReconstructStateTrajectory sol xdot).breaks[c.mode_start i + j]?
      = some (c.sampleTime sol (c.mode_start i + j)) ∧
    (c.ReconstructStateTrajectory sol xdot).samples[c.mode_start i + j]?
      = some (c.stateSolution sol (c.mode_start i + j)) ∧
    (c.ReconstructStateTrajectory sol xdot).derivatives[c.mode_start i + j]?
      = some (xdot (c.stateSolution sol (c.mode_start i + j))
          (c.inputSolution sol (c.mode_start i + j)) (c.forceSolution sol i j)) ∧
    (c.ReconstructStateTrajectory sol xdot).samples.length = c.N ∧
    (c.ReconstructInputTrajectory sol).samples[c.mode_start i + j]?
      = some (c.inputSolution sol (c.mode_start i + j)) ∧
    (c.ReconstructInputTrajectory sol).breaks
      = (List.range c.N).map (c.sampleTime sol) := by
  have hk := knotPairsFrom_getElem c.num_time_samples 0 i j hi hj
  have hkN : c.mode_start i + j < c.N := sum_take_add_lt c.num_time_samples i j hi hj
  refine ⟨?_, ?_, ?_, ?_, ?_, rfl⟩
  · simp only [HybridDircon.ReconstructStateTrajectory, HybridDircon.mode_start,
      List.map_map]
    rw [List.getElem?_map, hk]
    simp [HybridDircon.reconRow, HybridDircon.mode_start, Function.comp]
  · simp only [HybridDircon.ReconstructStateTrajectory, HybridDircon.mode_start,
      List.map_map]
    rw [List.getElem?_map, hk]
    simp [HybridDircon.reconRow, HybridDircon.mode_start, Function.comp]
  · simp only [HybridDircon.ReconstructStateTrajectory, HybridDircon.mode_start,
      List.map_map]
    rw [List.getElem?_map, hk]
    simp [HybridDircon.reconRow, HybridDircon.mode_start, Function.comp]
  · simp only [HybridDircon.ReconstructStateTrajectory, List.map_map, List.length_map]
    exact knotPairsFrom_length c.num_time_samples 0
  · simp only [HybridDircon.ReconstructInputTrajectory]
    rw [List.getElem?_map, List.getElem?_range hkN]
    rfl

/-- C9 witness: the reconstruction facts evaluated on `cfgOneMode2` with
the identity solution valuation and a concrete dynamics oracle. -/
theorem C9_reconstruction_witness :
    0 < cfgOneMode2.num_modes ∧ 0 < cfgOneMode2.mode_lengths 0 ∧
    ((cfgOneMode2.ReconstructStateTrajectory (fun v => (v : ℚ))
        (fun s u f => s ++ u ++ f)).samples[cfgOneMode2.mode_start 0 + 0]?
      = some (cfgOneMode2.stateSolution (fun v => (v : ℚ)) (cfgOneMode2.mode_start 0 + 0)) ∧
     (cfgOneMode2.ReconstructStateTrajectory (fun v => (v : ℚ))
        (fun s u f => s ++ u ++ f)).derivatives[cfgOneMode2.mode_start 0 + 0]?
      = some ((fun s u f => s ++ u ++ f)
          (cfgOneMode2.stateSolution (fun v => (v : ℚ)) (cfgOneMode2.mode_start 0 + 0))
          (cfgOneMode2.inputSolution (fun v => (v : ℚ)) (cfgOneMode2.mode_start 0 + 0))
          (cfgOneMode2.forceSolution (fun v => (v : ℚ)) 0 0))) :=
  ⟨by decide, by decide,
   ⟨(C9_reconstruction cfgOneMode2 (fun v => (v : ℚ)) (fun s u f => s ++ u ++ f) 0 0
      (by decide) (by decide)).2.1,
    (C9_reconstruction cfgOneMode2 (fun v => (v : ℚ)) (fun s u f => s ++ u ++ f) 0 0
      (by decide) (by decide)).2.2.1⟩⟩

/-- C10: the claim states that each of the three force groups is seeded
independently (zeros when its trajectory is empty, otherwise knot samples
at `i * h` and collocation samples at `(i + 0.5) * h`, `h` being the
initial guess of the first global timestep) regardless of the mode being
seeded.  The zero-fill branch and the sampling times hold, and for a
single-mode program the seeding succeeds as described; but evaluating the
code on a two-mode program refutes the claim: the sampling loops run over
the global sample count `N()` while the guess vector is sized by the
mode's own knot count, so seeding mode 0 of `cfgTwoModes` from a non-empty
trajectory writes past the end of the mode's force block and aborts. -/
theorem C10_seed_trajectory :
    cfgOneMode2.SetInitialForceTrajectory 0 (fun _ => 1) (some (fun _ => [7])) none none
      = Except.ok ([7, 7], [0], [0]) ∧
    cfgTwoModes.SetInitialForceTrajectory 0 (fun _ => 1) none none none
      = Except.ok ([0, 0], [0], [0]) ∧
    cfgTwoModes.SetInitialForceTrajectory 0 (fun _ => 1) (some (fun _ => [7])) none none
      = Except.error "segment assignment out of range" ∧
    cfgTwoModes.N = 4 ∧ (cfgTwoModes.force_vars 0).length = 2 :=
  ⟨rfl, rfl, rfl, rfl, rfl⟩

end HybridDirconModel
